import Mathlib

/-!
Verification of the upload-service implementation (Express + multer file
upload API).  The definitions below are a shallow embedding of the request
handlers and helpers of the richer source variant (`src/unnamed/part_000`);
the duplicate variants in `src/app.js` share the same helpers where they
overlap.  Pure JavaScript helpers become Lean functions on `Nat`, `String`
and `List Char`; the flat uploads directory (the Store) becomes a list of
stored file names, and each handler becomes a function from its inputs and
the current store to a response value and the resulting store.
All definitions are executable, so concrete runs can be settled by `decide`.
-/

/-! ## Kernel-computable string helpers

`String.toLower`, `String.endsWith` and `String.startsWith` from the core
library are implemented with byte positions and do not reduce inside the
kernel, so the embedding uses the equivalent character-list forms below.
-/

/-- Lower-case every character: models JavaScript `s.toLowerCase()` for the
ASCII names this service compares (`.apk` suffix checks). -/
def strToLower (s : String) : String :=
  String.mk (s.data.map Char.toLower)

/-- Models JavaScript `s.endsWith(t)`: `t` is a contiguous suffix of `s`. -/
def strEndsWith (s t : String) : Bool :=
  t.data.isSuffixOf s.data

/-- Models JavaScript `s.startsWith(t)`: `t` is a contiguous leading part
of `s`. -/
def strStartsWith (s t : String) : Bool :=
  t.data.isPrefixOf s.data

/-- Models JavaScript `s.charAt(0).toUpperCase() + s.slice(1)` from the
upload success message (`part_000` line 142). -/
def strCapitalize (s : String) : String :=
  match s.data with
  | [] => ""
  | c :: cs => String.mk (c.toUpper :: cs)

/-! ## formatFileSize (`part_000` lines 18-24, `app.js` lines 15-21)

The JavaScript computes `i = Math.floor(Math.log(bytes) / Math.log(1024))`,
then `parseFloat((bytes / Math.pow(1024, i)).toFixed(2)) + ' ' + sizes[i]`.
The embedding is the exact-arithmetic reading of that double computation:
`logFloor1024` is the floor base-1024 logarithm, `roundHundredths` is
`toFixed(2)` (round half away from zero, exact rationals) scaled to an
integer count of hundredths, and `displayFixed2` renders it the way
`parseFloat` of a `toFixed(2)` string prints (trailing zeros dropped).
`sizes[i]` for an out-of-range `i` is JavaScript `undefined`, which string
concatenation renders as `"undefined"`; `List.getD` with that default
models the lookup. -/

/-- Floor logarithm base 1024, by fuel-indexed structural recursion (the
fuel bounds the recursion depth; `n` itself always suffices). -/
def logFloorAux : Nat → Nat → Nat
  | 0, _ => 0
  | fuel + 1, n => if n < 1024 then 0 else logFloorAux fuel (n / 1024) + 1

/-- Computes `Math.floor(Math.log(bytes) / Math.log(1024))` in exact
arithmetic. -/
def logFloor1024 (bytes : Nat) : Nat :=
  logFloorAux bytes bytes

/-- The unit list of `formatFileSize` (`const sizes = ['Bytes', 'KB', 'MB',
'GB']`). -/
def sizesList : List String :=
  ["Bytes", "KB", "MB", "GB"]

/-- Computes `(bytes / 1024^i).toFixed(2)` as an integer count of hundredths:
round half away from zero of `100 * bytes / p` where `p = 1024^i`. -/
def roundHundredths (bytes p : Nat) : Nat :=
  (200 * bytes + p) / (2 * p)

/-- Render a count of hundredths the way `parseFloat(x.toFixed(2))`
prints: drop a trailing `.00`, drop a trailing zero in the second decimal
place, keep a leading zero in `.0d`. -/
def displayFixed2 (n : Nat) : String :=
  if n % 100 = 0 then Nat.repr (n / 100)
  else if n % 10 = 0 then Nat.repr (n / 100) ++ "." ++ Nat.repr (n % 100 / 10)
  else if n % 100 < 10 then Nat.repr (n / 100) ++ ".0" ++ Nat.repr (n % 100)
  else Nat.repr (n / 100) ++ "." ++ Nat.repr (n % 100)

/-- Models `formatFileSize` (`part_000` lines 18-24): human-readable byte count,
binary-prefixed with two-decimal rounding. -/
def formatFileSize (bytes : Nat) : String :=
  if bytes = 0 then "0 Bytes"
  else
    displayFixed2 (roundHundredths bytes (1024 ^ logFloor1024 bytes))
      ++ " " ++ sizesList.getD (logFloor1024 bytes) "undefined"

/-! ## Upload validation (`part_000` lines 38-123) -/

/-- An incoming multipart file as multer presents it to the handlers:
declared field, original client name, declared media type, and the byte
size measured from the written stream. -/
structure IncomingFile where
  fieldname : String
  originalname : String
  mimetype : String
  size : Nat
deriving DecidableEq

/-- Models `isAPKFile` (`part_000` lines 38-41): APK by declared media type or by
case-insensitive `.apk` name suffix. -/
def isAPKFile (f : IncomingFile) : Bool :=
  f.mimetype == "application/vnd.android.package-archive" ||
    strEndsWith (strToLower f.originalname) ".apk"

/-- The list `allowedImageTypes` (`part_000` line 45). -/
def allowedImageTypes : List String :=
  ["image/jpeg", "image/png", "image/gif", "image/webp"]

/-- The list `allowedVideoTypes` (`part_000` line 46). -/
def allowedVideoTypes : List String :=
  ["video/mp4", "video/mpeg", "video/quicktime", "video/x-msvideo"]

/-- The list `allowedDocumentTypes` (`part_000` line 47). -/
def allowedDocumentTypes : List String :=
  ["application/pdf"]

/-- Models `fileFilter` (`part_000` lines 44-58): accept APKs and the enumerated
image/video/document media types; reject everything else. -/
def fileFilter (f : IncomingFile) : Bool :=
  isAPKFile f || allowedImageTypes.contains f.mimetype ||
    allowedVideoTypes.contains f.mimetype ||
    allowedDocumentTypes.contains f.mimetype

/-- The rejection message `fileFilter` passes to its callback
(`part_000` line 56). -/
def invalidTypeMessage : String :=
  "Invalid file type. Only JPEG, PNG, GIF, WEBP, MP4, MPEG, MOV, AVI, PDF, and APK files are allowed."

/-- The constant `maxImageSize` (`part_000` line 102): 10 MiB. -/
def maxImageSize : Nat := 10 * 1024 * 1024

/-- The constant `maxOtherSize` (`part_000` line 103): 15 MiB for videos and
PDFs. -/
def maxOtherSize : Nat := 15 * 1024 * 1024

/-- The 400 body of the size-exceeded branch (`part_000` lines 111-118). -/
structure SizeErrorBody where
  message : String
  actualSize : Nat
  formattedSize : String
  maxSize : Nat
  formattedMaxSize : String
deriving DecidableEq

/-- Builds the size-exceeded body exactly as `part_000` lines 111-118. -/
def mkSizeErrorBody (fileSize limit : Nat) : SizeErrorBody :=
  { message := "File size (" ++ formatFileSize fileSize
      ++ ") exceeds the limit (" ++ formatFileSize limit ++ ")"
    actualSize := fileSize
    formattedSize := formatFileSize fileSize
    maxSize := limit
    formattedMaxSize := formatFileSize limit }

/-- The 201 body of the upload handler (`part_000` lines 140-150).  The
`path` field of the response prepends the request scheme and host to
`/uploads/<filename>`; the embedding keeps the request-independent part. -/
structure SuccessBody where
  message : String
  filename : String
  path : String
  size : Nat
  formattedSize : String
  mimetype : String
  type : String
  field : String
deriving DecidableEq

/-- The `fileType` computation of the upload handler (`part_000` lines
135-138): the successive reassignments starting from `'image'`. -/
def fileTypeOf (f : IncomingFile) : String :=
  let t1 := if strStartsWith f.mimetype "video/" then "video" else "image"
  let t2 := if f.mimetype == "application/pdf" then "pdf" else t1
  if isAPKFile f then "apk" else t2

/-- Builds the 201 body exactly as `part_000` lines 140-150. -/
def mkSuccessBody (f : IncomingFile) (storedName matchedField : String) :
    SuccessBody :=
  { message := strCapitalize (fileTypeOf f) ++ " uploaded successfully"
    filename := storedName
    path := "/uploads/" ++ storedName
    size := f.size
    formattedSize := formatFileSize f.size
    mimetype := f.mimetype
    type := fileTypeOf f
    field := matchedField }

/-- Outcome of a `POST /upload` request: the multer `fileFilter` rejection
(400, `err.message`), the missing-file rejection (400), the size-exceeded
rejection (400), or the created response (201). -/
inductive UploadResult where
  | filterError (message : String)
  | noFile
  | sizeExceeded (body : SizeErrorBody)
  | created (body : SuccessBody)
deriving DecidableEq

/-- HTTP status of each upload outcome (`part_000` lines 74-140). -/
def UploadResult.status : UploadResult → Nat
  | .filterError _ => 400
  | .noFile => 400
  | .sizeExceeded _ => 400
  | .created _ => 201

/-- The size-validation and response logic applied to the selected file
(`part_000` lines 95-121 and the 201 handler at lines 126-151): APKs skip
the size check; otherwise images are capped at `maxImageSize` and all other
accepted types at `maxOtherSize`, and a file over its cap is unlinked from
the store (`fs.unlinkSync(uploadedFile.path)`, line 108) before the 400
response. -/
def validateAndRespond (uf : IncomingFile) (ufName matchedField : String)
    (store1 : List String) : UploadResult × List String :=
  if isAPKFile uf then
    (.created (mkSuccessBody uf ufName matchedField), store1)
  else
    let isImage := strStartsWith uf.mimetype "image/"
    if (isImage && decide (maxImageSize < uf.size)) ||
        (!isImage && decide (maxOtherSize < uf.size)) then
      (.sizeExceeded
          (mkSizeErrorBody uf.size (if isImage then maxImageSize else maxOtherSize)),
        store1.erase ufName)
    else
      (.created (mkSuccessBody uf ufName matchedField), store1)

/-- End-to-end model of `POST /upload` (`part_000` lines 61-151) on a
request carrying at most one file under each accepted field (`file`,
`image`), as configured at lines 65-68.  `nameF`/`nameI` are the storage
names the disk-storage engine assigns to the respective files.  Multer
behavior embedded here: every file must pass `fileFilter` before it is
written; when a filter rejects, multer removes any file it already wrote,
so the store is unchanged and the request ends with the 400 `err.message`
response (lines 78-83).  When all files pass, they are all on disk when
`validateFileSize` runs; the middleware then validates only the selected
file `req.files?.file?.[0] || req.files?.image?.[0]` (line 86). -/
def processUpload (fileF imageF : Option IncomingFile)
    (nameF nameI : String) (store : List String) :
    UploadResult × List String :=
  if (fileF.toList ++ imageF.toList).all fileFilter then
    let store1 := store ++ fileF.toList.map (fun _ => nameF)
      ++ imageF.toList.map (fun _ => nameI)
    match fileF, imageF with
    | none, none => (.noFile, store1)
    | some uf, _ => validateAndRespond uf nameF "file" store1
    | none, some uf => validateAndRespond uf nameI "image" store1
  else
    (.filterError invalidTypeMessage, store)

/-! ## Storage-name generation (`part_000` lines 31-34) -/

/-- The last path component of `p`: trailing `/` separators dropped, then
the segment after the last remaining `/` (Node `path` basename step used
by `path.extname`). -/
def lastComponent (p : String) : String :=
  let rev := p.data.reverse.dropWhile (fun c => c == '/')
  String.mk ((rev.takeWhile (fun c => c != '/')).reverse)

/-- Node `path.extname`: the substring of the last path component from its
last dot to its end, except that a name with no dot, a name whose only
role for the dot is leading (hidden files like `.profile`), and the
component `..` all yield the empty string. -/
def extname (p : String) : String :=
  let c := (lastComponent p).data
  if c.contains '.' then
    let after := (c.reverse.takeWhile (fun ch => ch != '.')).reverse
    if c.length - after.length - 1 = 0 then ""
    else if c = ['.', '.'] then ""
    else String.mk ('.' :: after)
  else ""

/-- The disk-storage `filename` callback (`part_000` lines 31-34):
`` `${file.fieldname}-${Date.now()}-${Math.round(Math.random() * 1E9)}${path.extname(file.originalname)}` ``.
`now` is the epoch-millisecond timestamp and `rand` the value of
`Math.round(Math.random() * 1E9)`, an integer in `[0, 10^9]`. -/
def storageFilename (field orig : String) (now rand : Nat) : String :=
  field ++ "-" ++ Nat.repr now ++ "-" ++ Nat.repr rand ++ extname orig

/-! ## Delete endpoint (`part_000` lines 177-211)

The store is the flat uploads directory, modelled as the list of file
names it contains; `fs.existsSync(path.join(uploadPath, filename))` and
`fs.unlinkSync` act by exact name for ordinary leaf names (resolution of
escaping names is modelled separately below).  A JSON body without a
`filename` key gives JavaScript `undefined`, and `if (!filename)` also
catches the empty string; both are the `none`/`""` 400 branch. -/

/-- Response of `POST /delete`: status, `success`, `message`, and the
`filename` key that only the 200 body carries. -/
structure DeleteResponse where
  status : Nat
  success : Bool
  message : String
  filename : Option String
deriving DecidableEq

/-- Models `POST /delete` (`part_000` lines 177-211) over the store. -/
def deleteHandler (filename : Option String) (store : List String) :
    DeleteResponse × List String :=
  match filename with
  | none =>
    (⟨400, false, "Filename is required in request body", none⟩, store)
  | some fn =>
    if fn = "" then
      (⟨400, false, "Filename is required in request body", none⟩, store)
    else if store.contains fn then
      (⟨200, true, "File deleted successfully", some fn⟩, store.erase fn)
    else
      (⟨404, false, "File not found", none⟩, store)

/-! ## Path resolution for `GET /uploads/:filename` (`part_000` lines 154-174)

`path.join(__dirname, 'uploads', filename)` concatenates and normalizes:
`.` and empty segments vanish and `..` pops the previous segment (an
absolute path cannot go above the filesystem root).  Express decodes
percent-encoded characters in the `:filename` route parameter, so the
handler can receive a filename containing `/` and `..` segments.  Paths
are modelled as segment lists from the filesystem root. -/

/-- POSIX path normalization of extra segments pushed onto an absolute
base path held as a segment stack. -/
def normalizeInto (stack : List String) : List String → List String
  | [] => stack
  | seg :: rest =>
    if seg = "" || seg = "." then normalizeInto stack rest
    else if seg = ".." then normalizeInto stack.dropLast rest
    else normalizeInto (stack ++ [seg]) rest

/-- The uploads directory `path.join(__dirname, 'uploads')` with
`__dirname = /srv/app` as the concrete mount point. -/
def uploadsRoot : List String :=
  ["srv", "app", "uploads"]

/-- Models `path.join(uploadsRoot..., filename)` (`part_000` line 157): split the
parameter on `/` and normalize against the uploads directory. -/
def resolveUploadPath (filename : String) : List String :=
  normalizeInto uploadsRoot (filename.data.splitOn '/' |>.map String.mk)

/-- Whether a resolved path is still inside the uploads directory. -/
def withinUploadsRoot (resolved : List String) : Bool :=
  uploadsRoot.isPrefixOf resolved

/-- Models `GET /uploads/:filename` (`part_000` lines 154-166) over a filesystem
given as the list of existing absolute paths: `some p` is the 200 response
streaming the file at `p` (`res.sendFile(filePath)`), `none` the 404
`File not found` body. -/
def fetchHandler (filename : String) (fsPaths : List (List String)) :
    Option (List String) :=
  let filePath := resolveUploadPath filename
  if fsPaths.contains filePath then some filePath else none

/-! ## 500 responses (`part_000` lines 167-173, 204-210, 214-221) -/

/-- Client-visible body of a 500 response; each handler attaches the
caught error's message under the `error` key. -/
structure InternalErrorBody where
  status : Nat
  success : Bool
  message : String
  error : String
deriving DecidableEq

/-- The fetch handler's catch branch (`part_000` lines 167-173). -/
def fetchErrorResponse (e : String) : InternalErrorBody :=
  ⟨500, false, "Error retrieving file", e⟩

/-- The delete handler's catch branch (`part_000` lines 204-210). -/
def deleteErrorResponse (e : String) : InternalErrorBody :=
  ⟨500, false, "Error deleting file", e⟩

/-- The fallback error middleware (`part_000` lines 214-221). -/
def fallbackErrorResponse (e : String) : InternalErrorBody :=
  ⟨500, false, "Something broke!", e⟩

/-- The size cap `validateFileSize` applies to a non-APK file (`part_000`
lines 100-110): `maxImageSize` when the declared media type starts with
`image/`, `maxOtherSize` otherwise. -/
def categoryLimit (f : IncomingFile) : Nat :=
  if strStartsWith f.mimetype "image/" then maxImageSize else maxOtherSize

/-- The file the upload middleware selects
(`req.files?.file?.[0] || req.files?.image?.[0]`, `part_000` line 86). -/
def selectedFile (fileF imageF : Option IncomingFile) : Option IncomingFile :=
  match fileF with
  | some f => some f
  | none => imageF

/-! ## Helper lemmas -/

theorem logFloorAux_ge (fuel : Nat) :
    ∀ n k : Nat, 1024 ^ k ≤ n → n ≤ fuel → k ≤ logFloorAux fuel n := by
  induction fuel with
  | zero =>
    intro n k hpow hle
    have hpos : 0 < 1024 ^ k := pow_pos (by norm_num) k
    omega
  | succ fuel ih =>
    intro n k hpow hle
    match k with
    | 0 => exact Nat.zero_le _
    | k + 1 =>
      have h1 : (1024 : Nat) ≤ 1024 ^ (k + 1) := by
        calc (1024 : Nat) = 1024 ^ 1 := (pow_one _).symm
          _ ≤ 1024 ^ (k + 1) := Nat.pow_le_pow_right (by norm_num) (by omega)
      have h1024 : 1024 ≤ n := le_trans h1 hpow
      simp only [logFloorAux]
      rw [if_neg (by omega)]
      have hdiv : 1024 ^ k ≤ n / 1024 := by
        rw [Nat.le_div_iff_mul_le (by norm_num : (0:Nat) < 1024)]
        rw [← pow_succ]
        exact hpow
      have hlt : n / 1024 < n := Nat.div_lt_self (by omega) (by norm_num)
      have := ih (n / 1024) k hdiv (by omega)
      omega

theorem logFloorAux_lt (fuel : Nat) :
    ∀ n k : Nat, 0 < k → n < 1024 ^ k → logFloorAux fuel n < k := by
  induction fuel with
  | zero =>
    intro n k hk _
    simpa [logFloorAux] using hk
  | succ fuel ih =>
    intro n k hk hlt
    simp only [logFloorAux]
    by_cases hn : n < 1024
    · rw [if_pos hn]; exact hk
    · rw [if_neg hn]
      push_neg at hn
      have hk1 : 1 < k := by
        by_contra hle
        have hkeq : k = 1 := by omega
        subst hkeq
        simp [pow_one] at hlt
        omega
      have hdivlt : n / 1024 < 1024 ^ (k - 1) := by
        rw [Nat.div_lt_iff_lt_mul (by norm_num : (0:Nat) < 1024)]
        calc n < 1024 ^ k := hlt
          _ = 1024 ^ (k - 1) * 1024 := by
            rw [← pow_succ]
            congr 1
            omega
      have := ih (n / 1024) (k - 1) (by omega) hdivlt
      omega

theorem strListContains_iff (l : List String) (x : String) :
    l.contains x = true ↔ x ∈ l := by
  simp [List.contains, List.elem_iff]

theorem charListContains_iff (l : List Char) (x : Char) :
    l.contains x = true ↔ x ∈ l := by
  simp [List.contains, List.elem_iff]

/-! ## Claim theorems -/

/-- C6: `formatFileSize` returns `"0 Bytes"` for 0, `"1 KB"` for 1024 and
`"1.5 MB"` for 1572864; for every positive byte count below `1024 ^ 4` the
result is the two-decimal rounded value (`roundHundredths`, rendered by
`displayFixed2`) followed by one of the declared base-1024 units, and the
rounded value is within half a hundredth of `bytes / 1024 ^ i` (the two
inequalities in the last clause). -/
theorem formatFileSize_examples_and_units :
    formatFileSize 0 = "0 Bytes" ∧ formatFileSize 1024 = "1 KB" ∧
      formatFileSize 1572864 = "1.5 MB" ∧
      (∀ b : Nat, 0 < b → b < 1024 ^ 4 →
        ∃ u ∈ sizesList,
          formatFileSize b =
            displayFixed2 (roundHundredths b (1024 ^ logFloor1024 b)) ++ " " ++ u) ∧
      (∀ b : Nat, 0 < b →
        2 * 1024 ^ logFloor1024 b * roundHundredths b (1024 ^ logFloor1024 b) ≤
            200 * b + 1024 ^ logFloor1024 b ∧
          200 * b + 1024 ^ logFloor1024 b <
            2 * 1024 ^ logFloor1024 b * roundHundredths b (1024 ^ logFloor1024 b) +
              2 * 1024 ^ logFloor1024 b) := by
  refine ⟨by decide, by decide, by decide, ?_, ?_⟩
  · intro b hb0 hb4
    have hi : logFloor1024 b < 4 := logFloorAux_lt b b 4 (by norm_num) hb4
    refine ⟨sizesList.getD (logFloor1024 b) "undefined", ?_, ?_⟩
    · set i := logFloor1024 b with hidef
      interval_cases i <;> decide
    · simp [formatFileSize, Nat.pos_iff_ne_zero.1 hb0]
  · intro b hb0
    set p := 1024 ^ logFloor1024 b with hp
    have hppos : 0 < p := pow_pos (by norm_num) _
    have hdm := Nat.div_add_mod (200 * b + p) (2 * p)
    have hmlt : (200 * b + p) % (2 * p) < 2 * p := Nat.mod_lt _ (by omega)
    unfold roundHundredths
    omega

/-- C6 witness: the theorem applied at the concrete inputs 5 (for the
unit clause, with both hypotheses discharged) together with its closed
example clauses. -/
theorem formatFileSize_examples_and_units_witness :
    formatFileSize 0 = "0 Bytes" ∧ formatFileSize 1024 = "1 KB" ∧
      formatFileSize 1572864 = "1.5 MB" ∧
      (∃ u ∈ sizesList,
        formatFileSize 5 =
          displayFixed2 (roundHundredths 5 (1024 ^ logFloor1024 5)) ++ " " ++ u) ∧
      (2 * 1024 ^ logFloor1024 5 * roundHundredths 5 (1024 ^ logFloor1024 5) ≤
          200 * 5 + 1024 ^ logFloor1024 5 ∧
        200 * 5 + 1024 ^ logFloor1024 5 <
          2 * 1024 ^ logFloor1024 5 * roundHundredths 5 (1024 ^ logFloor1024 5) +
            2 * 1024 ^ logFloor1024 5) :=
  ⟨formatFileSize_examples_and_units.1, formatFileSize_examples_and_units.2.1,
    formatFileSize_examples_and_units.2.2.1,
    formatFileSize_examples_and_units.2.2.2.1 5 (by decide) (by decide),
    formatFileSize_examples_and_units.2.2.2.2 5 (by decide)⟩

/-- C10: for every byte count of `1024 ^ 4` (1 TiB) or more, the unit
index of `formatFileSize` is at least 4, past the end of the four-element
unit list, so the indexed lookup yields no declared unit (`none`); the
rendered result falls back to the JavaScript `undefined` text, which is
not one of the declared units. -/
theorem formatFileSize_unit_overflow (b : Nat) (h : 1024 ^ 4 ≤ b) :
    4 ≤ logFloor1024 b ∧ sizesList[logFloor1024 b]? = none ∧
      formatFileSize b =
        displayFixed2 (roundHundredths b (1024 ^ logFloor1024 b)) ++ " " ++ "undefined" ∧
      "undefined" ∉ sizesList := by
  have hpos : 0 < b := lt_of_lt_of_le (pow_pos (by norm_num) 4) h
  have h4 : 4 ≤ logFloor1024 b := logFloorAux_ge b b 4 h le_rfl
  have hlen : sizesList.length ≤ logFloor1024 b := by
    simp only [sizesList, List.length_cons, List.length_nil]
    omega
  have hnone : sizesList[logFloor1024 b]? = none := List.getElem?_eq_none hlen
  refine ⟨h4, hnone, ?_, by decide⟩
  simp only [formatFileSize, if_neg (Nat.pos_iff_ne_zero.1 hpos)]
  rw [List.getD_eq_getElem?_getD, hnone]
  rfl

/-- C10 witness: the theorem applied at exactly 1 TiB. -/
theorem formatFileSize_unit_overflow_witness :
    4 ≤ logFloor1024 (1024 ^ 4) ∧ sizesList[logFloor1024 (1024 ^ 4)]? = none ∧
      formatFileSize (1024 ^ 4) =
        displayFixed2 (roundHundredths (1024 ^ 4) (1024 ^ logFloor1024 (1024 ^ 4)))
          ++ " " ++ "undefined" ∧
      "undefined" ∉ sizesList :=
  formatFileSize_unit_overflow (1024 ^ 4) le_rfl

theorem validateAndRespond_eq (f : IncomingFile) (ufName matchedField : String)
    (store1 : List String) (hapk : isAPKFile f = false) :
    validateAndRespond f ufName matchedField store1 =
      if categoryLimit f < f.size then
        (.sizeExceeded (mkSizeErrorBody f.size (categoryLimit f)), store1.erase ufName)
      else
        (.created (mkSuccessBody f ufName matchedField), store1) := by
  unfold validateAndRespond categoryLimit
  rw [if_neg (by simp [hapk])]
  by_cases him : strStartsWith f.mimetype "image/" = true
  · simp only [him]
    by_cases hsz : maxImageSize < f.size
    · simp [hsz]
    · simp [hsz]
  · have him' : strStartsWith f.mimetype "image/" = false := by
      cases h : strStartsWith f.mimetype "image/" <;> simp_all
    simp only [him']
    by_cases hsz : maxOtherSize < f.size
    · simp [hsz]
    · simp [hsz]

/-- C1: for a request whose files all pass the type filter and whose
selected file `f` is not an APK, the upload rejects with 400 exactly when
`f`'s size strictly exceeds its category limit (`maxImageSize` for a
declared `image/...` media type, `maxOtherSize` for every other accepted
type); the rejection body carries the true size, the category limit, and
`formatFileSize` of each; a file at or under the limit yields 201. -/
theorem upload_size_limit_policy
    (fileF imageF : Option IncomingFile) (f : IncomingFile)
    (nameF nameI : String) (store : List String)
    (hall : (fileF.toList ++ imageF.toList).all fileFilter = true)
    (hsel : selectedFile fileF imageF = some f)
    (hapk : isAPKFile f = false) :
    ((processUpload fileF imageF nameF nameI store).1.status = 400 ↔
        categoryLimit f < f.size) ∧
      (categoryLimit f < f.size →
        (processUpload fileF imageF nameF nameI store).1 =
          .sizeExceeded
            { message := "File size (" ++ formatFileSize f.size
                ++ ") exceeds the limit (" ++ formatFileSize (categoryLimit f) ++ ")"
              actualSize := f.size
              formattedSize := formatFileSize f.size
              maxSize := categoryLimit f
              formattedMaxSize := formatFileSize (categoryLimit f) }) ∧
      (f.size ≤ categoryLimit f →
        (processUpload fileF imageF nameF nameI store).1.status = 201) := by
  obtain ⟨ufName, matchedField, store1, hred⟩ :
      ∃ a b c, processUpload fileF imageF nameF nameI store =
        validateAndRespond f a b c := by
    rcases fileF with _ | uf
    · rcases imageF with _ | ui
      · simp [selectedFile] at hsel
      · have hf : ui = f := by simpa [selectedFile] using hsel
        subst hf
        refine ⟨nameI, "image", store ++ [nameI], ?_⟩
        simp_all [processUpload]
    · have hf : uf = f := by simpa [selectedFile] using hsel
      subst hf
      refine ⟨nameF, "file", store ++ [nameF] ++ imageF.toList.map (fun _ => nameI), ?_⟩
      simp_all [processUpload]
  rw [hred, validateAndRespond_eq f ufName matchedField store1 hapk]
  by_cases hsz : categoryLimit f < f.size
  · rw [if_pos hsz]
    refine ⟨by simp [UploadResult.status, hsz], fun _ => rfl, fun hle => absurd hsz (by omega)⟩
  · rw [if_neg hsz]
    exact ⟨by simp [UploadResult.status, hsz], fun h => absurd h hsz, fun _ => rfl⟩

/-- C1 witness: a non-APK JPEG one byte over the 10 MiB image limit under
the `file` field, with all three hypotheses discharged concretely. -/
theorem upload_size_limit_policy_witness :
    ((processUpload (some ⟨"file", "big.jpg", "image/jpeg", 10485761⟩) none
          "file-1700000000000-1.jpg" "image-1700000000000-2.png" []).1.status = 400 ↔
        categoryLimit ⟨"file", "big.jpg", "image/jpeg", 10485761⟩ < 10485761) ∧
      (categoryLimit ⟨"file", "big.jpg", "image/jpeg", 10485761⟩ < 10485761 →
        (processUpload (some ⟨"file", "big.jpg", "image/jpeg", 10485761⟩) none
            "file-1700000000000-1.jpg" "image-1700000000000-2.png" []).1 =
          .sizeExceeded
            { message := "File size (" ++ formatFileSize 10485761
                ++ ") exceeds the limit ("
                ++ formatFileSize (categoryLimit ⟨"file", "big.jpg", "image/jpeg", 10485761⟩) ++ ")"
              actualSize := 10485761
              formattedSize := formatFileSize 10485761
              maxSize := categoryLimit ⟨"file", "big.jpg", "image/jpeg", 10485761⟩
              formattedMaxSize :=
                formatFileSize (categoryLimit ⟨"file", "big.jpg", "image/jpeg", 10485761⟩) }) ∧
      (10485761 ≤ categoryLimit ⟨"file", "big.jpg", "image/jpeg", 10485761⟩ →
        (processUpload (some ⟨"file", "big.jpg", "image/jpeg", 10485761⟩) none
            "file-1700000000000-1.jpg" "image-1700000000000-2.png" []).1.status = 201) :=
  upload_size_limit_policy (some ⟨"file", "big.jpg", "image/jpeg", 10485761⟩) none
    ⟨"file", "big.jpg", "image/jpeg", 10485761⟩ "file-1700000000000-1.jpg"
    "image-1700000000000-2.png" [] (by decide) (by decide) (by decide)

/-- C2: the claim states that every rejected upload leaves the store
exactly as it was, including when the request carried files under both
multipart fields.  The code violates it: on a size rejection only the
selected file is unlinked (`fs.unlinkSync(uploadedFile.path)`,
`part_000` line 108), so a request with an oversized JPEG under `file`
and a small PNG under `image` is rejected with 400 yet leaves the PNG's
stored copy behind. -/
theorem upload_rejection_leaves_residue :
    (processUpload (some ⟨"file", "big.jpg", "image/jpeg", 10485761⟩)
          (some ⟨"image", "ok.png", "image/png", 100⟩)
          "file-1700000000000-1.jpg" "image-1700000000000-2.png" []).1.status = 400 ∧
      (processUpload (some ⟨"file", "big.jpg", "image/jpeg", 10485761⟩)
          (some ⟨"image", "ok.png", "image/png", 100⟩)
          "file-1700000000000-1.jpg" "image-1700000000000-2.png" []).2 =
        ["image-1700000000000-2.png"] := by
  decide

/-- C3: the type filter accepts a file exactly when it is an APK (by
media type or name suffix) or its declared media type is one of the nine
enumerated types; a file rejected by the filter ends the upload with the
400 invalid-type response and the store unchanged. -/
theorem fileFilter_accepts_iff (f : IncomingFile) :
    (fileFilter f = true ↔
        isAPKFile f = true ∨
          f.mimetype ∈ (["image/jpeg", "image/png", "image/gif", "image/webp",
            "video/mp4", "video/mpeg", "video/quicktime", "video/x-msvideo",
            "application/pdf"] : List String)) ∧
      (fileFilter f = false → ∀ (nameF nameI : String) (store : List String),
        processUpload (some f) none nameF nameI store =
            (.filterError invalidTypeMessage, store) ∧
          (processUpload (some f) none nameF nameI store).1.status = 400) := by
  constructor
  · simp only [fileFilter, allowedImageTypes, allowedVideoTypes, allowedDocumentTypes,
      Bool.or_eq_true, strListContains_iff, List.mem_cons, List.not_mem_nil, or_false]
    tauto
  · intro hff nameF nameI store
    constructor
    · simp [processUpload, hff]
    · simp [processUpload, hff, UploadResult.status]

/-- C3 witness: a `text/plain` file is rejected by the filter, and its
upload attempt responds 400 leaving the store untouched. -/
theorem fileFilter_accepts_iff_witness :
    (fileFilter ⟨"file", "notes.txt", "text/plain", 5⟩ = true ↔
        isAPKFile ⟨"file", "notes.txt", "text/plain", 5⟩ = true ∨
          "text/plain" ∈ (["image/jpeg", "image/png", "image/gif", "image/webp",
            "video/mp4", "video/mpeg", "video/quicktime", "video/x-msvideo",
            "application/pdf"] : List String)) ∧
      (processUpload (some ⟨"file", "notes.txt", "text/plain", 5⟩) none "n1" "n2" ["keep.png"] =
          (.filterError invalidTypeMessage, ["keep.png"]) ∧
        (processUpload (some ⟨"file", "notes.txt", "text/plain", 5⟩) none
            "n1" "n2" ["keep.png"]).1.status = 400) :=
  ⟨(fileFilter_accepts_iff ⟨"file", "notes.txt", "text/plain", 5⟩).1,
    (fileFilter_accepts_iff ⟨"file", "notes.txt", "text/plain", 5⟩).2 (by decide)
      "n1" "n2" ["keep.png"]⟩

/-- C4: a file is classified as APK exactly when its declared media type
is `application/vnd.android.package-archive` or its original name
case-insensitively ends in `.apk`; every APK passes the type filter and
its upload is accepted with 201 regardless of its byte size (the size
check is skipped, `part_000` lines 95-98). -/
theorem apk_classification_and_exemption (f : IncomingFile) :
    (isAPKFile f = true ↔
        f.mimetype = "application/vnd.android.package-archive" ∨
          strEndsWith (strToLower f.originalname) ".apk" = true) ∧
      (isAPKFile f = true → ∀ (nameF nameI : String) (store : List String),
        fileFilter f = true ∧
          processUpload (some f) none nameF nameI store =
            (.created (mkSuccessBody f nameF "file"), store ++ [nameF])) := by
  constructor
  · simp [isAPKFile, Bool.or_eq_true, beq_iff_eq]
  · intro hapk nameF nameI store
    have hfil : fileFilter f = true := by simp [fileFilter, hapk]
    refine ⟨hfil, ?_⟩
    simp [processUpload, hfil, validateAndRespond, hapk]

/-- C4 witness: an upper-case `.APK` name with a generic media type and a
size of about 93 GiB, classified as APK and accepted with 201. -/
theorem apk_classification_and_exemption_witness :
    (isAPKFile ⟨"file", "Game.APK", "application/octet-stream", 99999999999⟩ = true ↔
        "application/octet-stream" = "application/vnd.android.package-archive" ∨
          strEndsWith (strToLower "Game.APK") ".apk" = true) ∧
      (fileFilter ⟨"file", "Game.APK", "application/octet-stream", 99999999999⟩ = true ∧
        processUpload (some ⟨"file", "Game.APK", "application/octet-stream", 99999999999⟩)
            none "file-1700000000000-5.APK" "n2" ["old.png"] =
          (.created (mkSuccessBody ⟨"file", "Game.APK", "application/octet-stream", 99999999999⟩
              "file-1700000000000-5.APK" "file"),
            ["old.png"] ++ ["file-1700000000000-5.APK"])) :=
  ⟨(apk_classification_and_exemption ⟨"file", "Game.APK", "application/octet-stream", 99999999999⟩).1,
    (apk_classification_and_exemption ⟨"file", "Game.APK", "application/octet-stream", 99999999999⟩).2
      (by decide) "file-1700000000000-5.APK" "n2" ["old.png"]⟩

/-- C7: the delete operation responds 400 with the required-filename
message when the body carries no filename; 404 with `File not found` when
the named file is absent; and when present it removes the file and
responds 200 with the success body carrying the filename.  Consequently
two consecutive deletes of the same name on a duplicate-free store yield
200 then 404. -/
theorem delete_endpoint_spec :
    (∀ store : List String,
        deleteHandler none store =
          (⟨400, false, "Filename is required in request body", none⟩, store)) ∧
      (∀ (fn : String) (store : List String), fn ≠ "" → fn ∉ store →
        deleteHandler (some fn) store =
          (⟨404, false, "File not found", none⟩, store)) ∧
      (∀ (fn : String) (store : List String), fn ≠ "" → fn ∈ store →
        deleteHandler (some fn) store =
          (⟨200, true, "File deleted successfully", some fn⟩, store.erase fn)) ∧
      (∀ (fn : String) (store : List String), fn ≠ "" → fn ∈ store → store.Nodup →
        (deleteHandler (some fn) store).1.status = 200 ∧
          (deleteHandler (some fn) (deleteHandler (some fn) store).2).1.status = 404) := by
  have habsent : ∀ (fn : String) (store : List String), fn ≠ "" → fn ∉ store →
      deleteHandler (some fn) store = (⟨404, false, "File not found", none⟩, store) := by
    intro fn store hne hnm
    show (if fn = "" then _ else if store.contains fn = true then _ else _) = _
    rw [if_neg hne, if_neg (by rw [strListContains_iff]; exact hnm)]
  have hpresent : ∀ (fn : String) (store : List String), fn ≠ "" → fn ∈ store →
      deleteHandler (some fn) store =
        (⟨200, true, "File deleted successfully", some fn⟩, store.erase fn) := by
    intro fn store hne hm
    show (if fn = "" then _ else if store.contains fn = true then _ else _) = _
    rw [if_neg hne, if_pos (by rw [strListContains_iff]; exact hm)]
  refine ⟨fun store => rfl, habsent, hpresent, ?_⟩
  intro fn store hne hm hnd
  rw [hpresent fn store hne hm]
  have hgone : fn ∉ store.erase fn := fun hmem =>
    ((List.Nodup.mem_erase_iff hnd).1 hmem).1 rfl
  rw [habsent fn (store.erase fn) hne hgone]
  exact ⟨rfl, rfl⟩

/-- C7 witness: missing filename, a never-stored name, and a double
delete of a present name on the one-element store. -/
theorem delete_endpoint_spec_witness :
    deleteHandler none ["file-1700000000000-1.png"] =
        (⟨400, false, "Filename is required in request body", none⟩,
          ["file-1700000000000-1.png"]) ∧
      deleteHandler (some "ghost.png") ["file-1700000000000-1.png"] =
        (⟨404, false, "File not found", none⟩, ["file-1700000000000-1.png"]) ∧
      deleteHandler (some "file-1700000000000-1.png") ["file-1700000000000-1.png"] =
        (⟨200, true, "File deleted successfully", some "file-1700000000000-1.png"⟩,
          ["file-1700000000000-1.png"].erase "file-1700000000000-1.png") ∧
      ((deleteHandler (some "file-1700000000000-1.png")
            ["file-1700000000000-1.png"]).1.status = 200 ∧
        (deleteHandler (some "file-1700000000000-1.png")
            (deleteHandler (some "file-1700000000000-1.png")
              ["file-1700000000000-1.png"]).2).1.status = 404) :=
  ⟨delete_endpoint_spec.1 ["file-1700000000000-1.png"],
    delete_endpoint_spec.2.1 "ghost.png" ["file-1700000000000-1.png"]
      (by decide) (by decide),
    delete_endpoint_spec.2.2.1 "file-1700000000000-1.png" ["file-1700000000000-1.png"]
      (by decide) (by decide),
    delete_endpoint_spec.2.2.2 "file-1700000000000-1.png" ["file-1700000000000-1.png"]
      (by decide) (by decide) (by decide)⟩

/-- C8: the claim states fetch never returns content outside the Store
root.  The code violates it: `path.join(__dirname, 'uploads', filename)`
normalizes `..` segments away, Express delivers a percent-decoded
`:filename` that may contain `/` and `..`, and the handler serves
whatever the resolved path names.  With `../../../etc/passwd` the
resolved path is `/etc/passwd`, outside the uploads root, and the handler
streams it when it exists. -/
theorem fetch_path_traversal_escape :
    resolveUploadPath "../../../etc/passwd" = ["etc", "passwd"] ∧
      withinUploadsRoot ["etc", "passwd"] = false ∧
      fetchHandler "../../../etc/passwd"
          [["srv", "app", "uploads", "photo.png"], ["etc", "passwd"]] =
        some ["etc", "passwd"] := by
  decide

/-- C9 counterexample: two distinct internal errors in the fetch handler
produce distinct client-visible 500 bodies, because the body carries the
underlying error text under the `error` key (`part_000` line 171). -/
theorem internal_error_responses_differ :
    fetchErrorResponse "ENOENT: no such file or directory" ≠
        fetchErrorResponse "EACCES: permission denied" ∧
      (fetchErrorResponse "ENOENT: no such file or directory").error =
        "ENOENT: no such file or directory" := by
  decide

/-- C9 amended: each handler's 500 response has a fixed generic `message`
(`Error retrieving file`, `Error deleting file`, `Something broke!`) and
status 500, but the body also carries the underlying error's text in its
`error` field, so the full client-visible response differs between
distinct internal errors rather than being identical. -/
theorem internal_error_generic_message_with_leak :
    (∀ e1 e2 : String,
        (fetchErrorResponse e1).message = (fetchErrorResponse e2).message ∧
          (deleteErrorResponse e1).message = (deleteErrorResponse e2).message ∧
          (fallbackErrorResponse e1).message = (fallbackErrorResponse e2).message) ∧
      (∀ e : String,
        (fetchErrorResponse e).status = 500 ∧ (fetchErrorResponse e).error = e ∧
          (deleteErrorResponse e).status = 500 ∧ (deleteErrorResponse e).error = e ∧
          (fallbackErrorResponse e).status = 500 ∧ (fallbackErrorResponse e).error = e) ∧
      (∀ e1 e2 : String, e1 ≠ e2 →
        fetchErrorResponse e1 ≠ fetchErrorResponse e2 ∧
          deleteErrorResponse e1 ≠ deleteErrorResponse e2 ∧
          fallbackErrorResponse e1 ≠ fallbackErrorResponse e2) := by
  refine ⟨fun e1 e2 => ⟨rfl, rfl, rfl⟩,
    fun e => ⟨rfl, rfl, rfl, rfl, rfl, rfl⟩,
    fun e1 e2 hne => ⟨?_, ?_, ?_⟩⟩ <;>
  · intro h
    exact hne (congrArg InternalErrorBody.error h)

/-- C9 amended witness: the amended theorem at two concrete distinct
error texts. -/
theorem internal_error_generic_message_with_leak_witness :
    ((fetchErrorResponse "ENOENT").message = (fetchErrorResponse "EACCES").message ∧
        (deleteErrorResponse "ENOENT").message = (deleteErrorResponse "EACCES").message ∧
        (fallbackErrorResponse "ENOENT").message = (fallbackErrorResponse "EACCES").message) ∧
      ((fetchErrorResponse "ENOENT").status = 500 ∧
        (fetchErrorResponse "ENOENT").error = "ENOENT" ∧
        (deleteErrorResponse "ENOENT").status = 500 ∧
        (deleteErrorResponse "ENOENT").error = "ENOENT" ∧
        (fallbackErrorResponse "ENOENT").status = 500 ∧
        (fallbackErrorResponse "ENOENT").error = "ENOENT") ∧
      (fetchErrorResponse "ENOENT" ≠ fetchErrorResponse "EACCES" ∧
        deleteErrorResponse "ENOENT" ≠ deleteErrorResponse "EACCES" ∧
        fallbackErrorResponse "ENOENT" ≠ fallbackErrorResponse "EACCES") :=
  ⟨internal_error_generic_message_with_leak.1 "ENOENT" "EACCES",
    internal_error_generic_message_with_leak.2.1 "ENOENT",
    internal_error_generic_message_with_leak.2.2 "ENOENT" "EACCES" (by decide)⟩

theorem dropWhile_eq_self_of_all (p : Char → Bool) (l : List Char)
    (h : ∀ a ∈ l, p a = false) : l.dropWhile p = l := by
  cases l with
  | nil => rfl
  | cons a t => simp [List.dropWhile_cons, h a (List.mem_cons_self a t)]

theorem takeWhile_eq_self_of_all (p : Char → Bool) (l : List Char)
    (h : ∀ a ∈ l, p a = true) : l.takeWhile p = l := by
  induction l with
  | nil => rfl
  | cons a t ih =>
    simp [List.takeWhile_cons, h a (List.mem_cons_self a t),
      ih (fun x hx => h x (List.mem_cons_of_mem a hx))]

theorem takeWhile_append_stop (p : Char → Bool) (l1 l2 : List Char) (a : Char)
    (h1 : ∀ x ∈ l1, p x = true) (h2 : p a = false) :
    (l1 ++ a :: l2).takeWhile p = l1 := by
  induction l1 with
  | nil => simp [List.takeWhile_cons, h2]
  | cons b t ih =>
    simp [List.takeWhile_cons, h1 b (List.mem_cons_self b t),
      ih (fun x hx => h1 x (List.mem_cons_of_mem b hx))]

theorem lastComponent_eq_self (p : String) (h : ∀ c ∈ p.data, c ≠ '/') :
    lastComponent p = p := by
  simp only [lastComponent]
  have h1 : p.data.reverse.dropWhile (fun c => c == '/') = p.data.reverse :=
    dropWhile_eq_self_of_all _ _ (fun a ha =>
      beq_eq_false_iff_ne.mpr (h a (List.mem_reverse.1 ha)))
  have h2 : p.data.reverse.takeWhile (fun c => c != '/') = p.data.reverse :=
    takeWhile_eq_self_of_all _ _ (fun a ha => by
      simpa using h a (List.mem_reverse.1 ha))
  rw [h1, h2, List.reverse_reverse]

theorem extname_append_ext (stem e : String)
    (hstem : ∀ c ∈ stem.data, c ≠ '/') (hstemne : stem ≠ "")
    (he : ∀ c ∈ e.data, c ≠ '.' ∧ c ≠ '/')
    (hdot : ¬(stem = "." ∧ e = "")) :
    extname (stem ++ "." ++ e) = "." ++ e := by
  have hdata : (stem ++ "." ++ e).data = stem.data ++ '.' :: e.data := by
    simp [String.data_append]
  have hnoslash : ∀ c ∈ (stem ++ "." ++ e).data, c ≠ '/' := by
    rw [hdata]
    intro c hc
    rcases List.mem_append.1 hc with hin | hin
    · exact hstem c hin
    · rcases List.mem_cons.1 hin with hin | hin
      · subst hin; decide
      · exact (he c hin).2
  simp only [extname, lastComponent_eq_self _ hnoslash, hdata]
  have hmem : '.' ∈ stem.data ++ '.' :: e.data :=
    List.mem_append.2 (Or.inr (List.mem_cons_self _ _))
  rw [if_pos ((charListContains_iff _ _).2 hmem)]
  have hafter :
      ((stem.data ++ '.' :: e.data).reverse.takeWhile (fun ch => ch != '.')).reverse
        = e.data := by
    rw [List.reverse_append, List.reverse_cons, List.append_assoc,
      List.singleton_append]
    rw [takeWhile_append_stop _ _ _ _
      (fun x hx => by simpa using (he x (List.mem_reverse.1 hx)).1) (by decide)]
    exact List.reverse_reverse _
  rw [hafter]
  have hstemlen : stem.data.length ≠ 0 := by
    intro h0
    exact hstemne (String.ext (List.length_eq_zero.1 h0))
  rw [if_neg (by
    simp only [List.length_append, List.length_cons]
    omega)]
  have hne2 : stem.data ++ '.' :: e.data ≠ ['.', '.'] := by
    intro hC
    have hlen := congrArg List.length hC
    simp only [List.length_append, List.length_cons, List.length_nil] at hlen
    have hs1 : stem.data.length = 1 := by omega
    have he0 : e.data.length = 0 := by omega
    have heq : e.data = [] := List.length_eq_zero.1 he0
    obtain ⟨c0, hc0⟩ : ∃ c0, stem.data = [c0] := by
      match hsd : stem.data with
      | [c0] => exact ⟨c0, rfl⟩
      | [] => rw [hsd] at hs1; simp at hs1
      | c0 :: c1 :: t => rw [hsd] at hs1; simp at hs1
    rw [hc0, heq] at hC
    simp at hC
    exact hdot ⟨String.ext (by rw [hc0, hC]), String.ext (by rw [heq])⟩
  rw [if_neg hne2]
  cases e with
  | mk d => rfl

theorem extname_of_no_dot (orig : String) (h : ∀ c ∈ orig.data, c ≠ '.' ∧ c ≠ '/') :
    extname orig = "" := by
  have hns : ∀ c ∈ orig.data, c ≠ '/' := fun c hc => (h c hc).2
  simp only [extname, lastComponent_eq_self _ hns]
  rw [if_neg (fun hcon => (h '.' ((charListContains_iff _ _).1 hcon)).1 rfl)]

/-- C5 counterexample: `Math.round(Math.random() * 1E9)` can return 0 (any
draw below `5e-10` rounds to it), and the storage name generated with
`rand = 0` is `file-1700000000000-0.jpg`, which cannot be written as
`<field>-<epoch-ms>-<nine-digit-random><ext>` with the request's field,
timestamp and extension: every nine-character random component would make
the name 32 characters long, but the generated name has 24. -/
theorem storage_name_not_always_nine_digits :
    storageFilename "file" "photo.jpg" 1700000000000 0 = "file-1700000000000-0.jpg" ∧
      ¬ ∃ r : String, r.length = 9 ∧
          storageFilename "file" "photo.jpg" 1700000000000 0 =
            "file-1700000000000-" ++ r ++ ".jpg" := by
  refine ⟨by decide, ?_⟩
  rintro ⟨r, hr, he⟩
  have h1 : (storageFilename "file" "photo.jpg" 1700000000000 0).length = 24 := by
    decide
  rw [he, String.length_append, String.length_append] at h1
  have h2 : ("file-1700000000000-" : String).length = 19 := by decide
  have h3 : (".jpg" : String).length = 4 := by decide
  omega

/-- C5 amended: the generated storage name has the exact shape
`<field>-<epoch-milliseconds>-<random-integer><original-extension>`, where
the random component is the decimal rendering of
`Math.round(Math.random() * 1E9)` — an integer between 0 and `10 ^ 9`
inclusive, typically but not always nine digits — and the extension is
Node `path.extname` of the original name, preserved verbatim: for a name
`<stem>.<ext-chars>` (dot-free extension, nonempty stem, not the special
`..` case) it is `"." ++ ext-chars`, and it is empty when the original
name has no dot. -/
theorem storage_name_shape_amended :
    (∀ (field orig : String) (now rand : Nat), rand ≤ 10 ^ 9 →
        storageFilename field orig now rand =
          field ++ "-" ++ Nat.repr now ++ "-" ++ Nat.repr rand ++ extname orig) ∧
      (∀ stem e : String, (∀ c ∈ stem.data, c ≠ '/') → stem ≠ "" →
        (∀ c ∈ e.data, c ≠ '.' ∧ c ≠ '/') → ¬(stem = "." ∧ e = "") →
        extname (stem ++ "." ++ e) = "." ++ e) ∧
      (∀ orig : String, (∀ c ∈ orig.data, c ≠ '.' ∧ c ≠ '/') →
        extname orig = "") :=
  ⟨fun _ _ _ _ _ => rfl, extname_append_ext, extname_of_no_dot⟩

/-- C5 amended witness: the shape at a nine-digit draw, the preserved
`.jpg` extension of `photo.jpg`, and the empty extension of `README`. -/
theorem storage_name_shape_amended_witness :
    storageFilename "file" "photo.jpg" 1700000000000 123456789 =
        "file" ++ "-" ++ Nat.repr 1700000000000 ++ "-" ++ Nat.repr 123456789
          ++ extname "photo.jpg" ∧
      extname ("photo" ++ "." ++ "jpg") = "." ++ "jpg" ∧
      extname "README" = "" :=
  ⟨storage_name_shape_amended.1 "file" "photo.jpg" 1700000000000 123456789 (by decide),
    storage_name_shape_amended.2.1 "photo" "jpg" (by decide) (by decide)
      (by decide) (by decide),
    storage_name_shape_amended.2.2 "README" (by decide)⟩
